import Mathlib

/-!
Verification of the result-normalization and composition layer of the
go-playground MCP server.

The embedding follows the TypeScript source:
* types.ts — data model, argument validation, `processEvents`
* go-playground-client.ts — `processRunResponse`, `handleApiError`,
  `runGoCode`, `shareGoCode`, `runAndShareGoCode`
* mcp-server.ts — formatters and the tool router

Network effects are made explicit: each remote-calling function takes the
remote behaviour (the HTTP response, or the transport error) as a parameter
of type `Except ApiError _`, and returns alongside its result the list of
remote calls it actually issued, so that "no remote call is attempted" is a
provable statement about the returned call log.
-/

namespace GoPlayground

/-- Whitespace as recognised by the JavaScript `String.prototype.trim`
(restricted to the ASCII whitespace characters plus NBSP and the BOM,
which covers every input the claims touch). -/
def isJsWhitespace (c : Char) : Bool :=
  c == ' ' || c == '\t' || c == '\n' || c == '\r' || c == '\x0b' || c == '\x0c' ||
    c == Char.ofNat 0xa0 || c == Char.ofNat 0xfeff

/-- The JavaScript `String.prototype.trim`: strip leading and trailing
whitespace.  Defined by structural recursion on the character list so that
it evaluates inside the kernel. -/
def jsTrim (s : String) : String :=
  String.mk (((s.data.dropWhile isJsWhitespace).reverse.dropWhile isJsWhitespace).reverse)

/-- Event kind of a playground stream event: `stdout | stderr | exit`. -/
inductive EventKind where
  | stdout
  | stderr
  | exit
deriving DecidableEq, Repr

/-- One event of the remote response: `{Message, Kind, Delay}`. -/
structure GoPlaygroundEvent where
  Message : String
  Kind : EventKind
  Delay : Int
deriving DecidableEq, Repr

/-- The remote execution response body.  `Events? : ... | null` is modelled
as `Option`, with `none` standing for an absent or null field. -/
structure GoPlaygroundResponse where
  Errors : String
  Events : Option (List GoPlaygroundEvent)
  Status : Int
  IsTest : Bool
  TestsFailed : Int
  VetOK : Option Bool
deriving DecidableEq, Repr

/-- Discriminated result union: `MCPGoPlaygroundSuccess | MCPGoPlaygroundFailure`.
`success` carries `output`, a mandatory `exitCode` and an optional `shareUrl`;
`failure` carries `errors`, an optional `exitCode` and an optional `shareUrl`. -/
inductive MCPGoPlaygroundResult where
  | success (output : String) (exitCode : Int) (shareUrl : Option String)
  | failure (errors : String) (exitCode : Option Int) (shareUrl : Option String)
deriving DecidableEq, Repr

/-- `ProcessedOutput` of `processEvents`. -/
structure ProcessedOutput where
  output : String
  hasErrors : Bool
deriving DecidableEq, Repr

/-- types.ts `processEvents`: empty input short-circuits; otherwise the
stdout messages, with empty messages dropped, joined with no separator, and
a flag recording whether any stderr event exists. -/
def processEvents (events : List GoPlaygroundEvent) : ProcessedOutput :=
  if events.length = 0 then
    { output := "", hasErrors := false }
  else
    let stdoutEvents := events.filter (fun e => e.Kind == EventKind.stdout)
    let stderrEvents := events.filter (fun e => e.Kind == EventKind.stderr)
    let output :=
      String.join ((stdoutEvents.map (fun e => e.Message)).filter (fun m => m != ""))
    { output := output, hasErrors := stderrEvents.length > 0 }

/-- The fixed message for a null / non-object remote response. -/
def invalidResponseMessage : String := "Invalid response from Go Playground API"

/-- go-playground-client.ts `processRunResponse`.  A null or non-object
response is modelled as `none`.  The compile-error guard mirrors the source
condition `result.Errors && result.Errors.trim() !== ""`; the stderr check and the
stdout processing both read `result.Events ?? []`. -/
def processRunResponse : Option GoPlaygroundResponse → MCPGoPlaygroundResult
  | none => .failure invalidResponseMessage none none
  | some result =>
    if result.Errors ≠ "" ∧ jsTrim result.Errors ≠ "" then
      .failure result.Errors (some result.Status) none
    else
      let stderrEvents := (result.Events.getD []).filter (fun e => e.Kind == EventKind.stderr)
      if stderrEvents.length > 0 then
        .failure (String.join (stderrEvents.map (fun e => e.Message)))
          (some result.Status) none
      else
        .success (processEvents (result.Events.getD [])).output result.Status none

/-- types.ts `isGoCode`: a code value is valid when it is a string that is
non-empty after trimming. -/
def isGoCode (s : String) : Bool := (jsTrim s).length > 0

/-- A `GoPlaygroundError` value: the `name` discriminant is implicit in the
type, leaving the `message` and the error `code` string. -/
structure GoPlaygroundError where
  message : String
  code : String
deriving DecidableEq, Repr

/-- The fixed validation-failure message of `validateGoCode`. -/
def validationErrorMessage : String := "Invalid Go code: code must be a non-empty string"

/-- types.ts `validateGoCode`: returns the code unchanged on success, or a
`VALIDATION_ERROR` `GoPlaygroundError` when `isGoCode` rejects it. -/
def validateGoCode (code : String) : Except GoPlaygroundError String :=
  if isGoCode code then .ok code
  else .error { message := validationErrorMessage, code := "VALIDATION_ERROR" }

/-- The ways the `catch` of the remote client can be entered: an axios transport
error (optionally carrying an HTTP status), a thrown `GoPlaygroundError`,
or any other thrown value (reduced to its message string). -/
inductive ApiError where
  | axios (statusCode : Option Nat) (message : String)
  | playground (code : String) (message : String)
  | other (message : String)
deriving DecidableEq, Repr

/-- go-playground-client.ts `handleApiError`: converts a caught error into a
failure result, never re-throwing. -/
def handleApiError : ApiError → MCPGoPlaygroundResult
  | .axios statusCode message =>
    .failure ("HTTP Error: " ++
      (match statusCode with
       | some n => toString n
       | none => "unknown") ++ " - " ++ message) none none
  | .playground code message =>
    .failure ("GoPlayground Error [" ++ code ++ "]: " ++ message) none none
  | .other message =>
    .failure ("Unexpected error: " ++ message) none none

/-- The two kinds of outbound request the client can issue. -/
inductive RemoteCall where
  | compile
  | share
deriving DecidableEq, Repr

/-- The remote behaviour observed by `runGoCode`: either the `/compile`
response body (possibly null / non-object, hence `Option`), or a transport
error. -/
abbrev RunNet : Type := Except ApiError (Option GoPlaygroundResponse)

/-- The remote behaviour observed by `shareGoCode`: either the bare share
identifier string, or a transport error. -/
abbrev ShareNet : Type := Except ApiError String

/-- go-playground-client.ts `runGoCode`: validate, then issue the `/compile`
request and classify its response with `processRunResponse`; a caught error
goes through `handleApiError`.  The second component is the list of remote
calls issued. -/
def runGoCode (code : String) (net : RunNet) :
    MCPGoPlaygroundResult × List RemoteCall :=
  match validateGoCode code with
  | .error e => (.failure e.message none none, [])
  | .ok _ =>
    match net with
    | .ok respBody => (processRunResponse respBody, [RemoteCall.compile])
    | .error err => (handleApiError err, [RemoteCall.compile])

/-- go-playground-client.ts `shareGoCode`: validate (returning null on
failure), then issue the `/share` request; on success build the link
`frontendUrl ++ "/p/" ++ shareId`, on a caught error return null. -/
def shareGoCode (frontendUrl : String) (code : String) (net : ShareNet) :
    Option String × List RemoteCall :=
  match validateGoCode code with
  | .error _ => (none, [])
  | .ok _ =>
    match net with
    | .ok shareId => (some (frontendUrl ++ "/p/" ++ shareId), [RemoteCall.share])
    | .error _ => (none, [RemoteCall.share])

/-- The merge `{...runResult, shareUrl: shareUrl ?? undefined}`: replace the
`shareUrl` field of the result, keeping the discriminant and the other fields. -/
def withShare : MCPGoPlaygroundResult → Option String → MCPGoPlaygroundResult
  | .success o e _, u => .success o e u
  | .failure er e _, u => .failure er e u

/-- go-playground-client.ts `runAndShareGoCode`: validate once, run both
operations on the validated code, and merge the share link into the
execution result. -/
def runAndShareGoCode (frontendUrl : String) (code : String)
    (runNet : RunNet) (shareNet : ShareNet) :
    MCPGoPlaygroundResult × List RemoteCall :=
  match validateGoCode code with
  | .error e => (.failure e.message none none, [])
  | .ok validatedCode =>
    let runResult := runGoCode validatedCode runNet
    let shareResult := shareGoCode frontendUrl validatedCode shareNet
    (withShare runResult.1 shareResult.1, runResult.2 ++ shareResult.2)

/-- mcp-server.ts `formatSuccessResponse`: the fixed success template, with
`(no output)` substituted for an empty output. -/
def formatSuccessResponse (output : String) (exitCode : Int) : String :=
  String.intercalate "\n"
    ["✅ Code executed successfully!\n",
     "**Output:**",
     "```",
     (if output = "" then "(no output)" else output),
     "```\n",
     "**Exit Code:** " ++ toString exitCode]

/-- mcp-server.ts `formatFailureResponse`: the fixed failure template; the
exit-code line is pushed only when an exit code is present. -/
def formatFailureResponse (errors : String) (exitCode : Option Int) : String :=
  String.intercalate "\n"
    (["❌ Code execution failed!\n",
      "**Errors:**",
      "```",
      errors,
      "```\n"] ++
     (match exitCode with
      | some ec => ["**Exit Code:** " ++ toString ec]
      | none => []))

/-- mcp-server.ts `formatRunResponse`: dispatch on the discriminant. -/
def formatRunResponse : MCPGoPlaygroundResult → String
  | .success o e _ => formatSuccessResponse o e
  | .failure er e _ => formatFailureResponse er e

/-- The `shareUrl` field common to both result variants. -/
def shareUrlOf : MCPGoPlaygroundResult → Option String
  | .success _ _ u => u
  | .failure _ _ u => u

/-- mcp-server.ts `formatRunAndShareResponse`: the run report, then the
share line (URL when present, warning otherwise), joined with no
separator. -/
def formatRunAndShareResponse (result : MCPGoPlaygroundResult) : String :=
  String.join
    [formatRunResponse result,
     (match shareUrlOf result with
      | some u => "\n**Share URL:** " ++ u
      | none => "\n⚠️ Failed to generate share URL")]

/-- A JSON-ish argument value, enough to distinguish the shapes the type
guards test for: strings, booleans, numbers and null. -/
inductive JsonVal where
  | str (s : String)
  | boolean (b : Bool)
  | num (n : Int)
  | null
deriving DecidableEq, Repr

/-- The argument bag of a tool call: each field is `none` when the key is
absent.  A non-object or null `args` value is modelled as `none` at the
`Option ArgsBag` level in the guards below. -/
structure ArgsBag where
  code : Option JsonVal
  withVet : Option JsonVal
deriving DecidableEq, Repr

/-- `isGoCode` lifted to an untyped argument value: only a string that is
non-empty after trimming passes. -/
def isGoCodeVal : JsonVal → Bool
  | .str s => isGoCode s
  | _ => false

/-- The common `code in args && isGoCode(args.code)` test of the three
argument guards, with `none` for a null or non-object bag. -/
def hasValidCodeArg : Option ArgsBag → Bool
  | none => false
  | some args =>
    match args.code with
    | some v => isGoCodeVal v
    | none => false

/-- The common `!(withVet in args) || typeof args.withVet === boolean`
test. -/
def withVetArgOk : Option ArgsBag → Bool
  | none => false
  | some args =>
    match args.withVet with
    | none => true
    | some (.boolean _) => true
    | some _ => false

/-- types.ts `isRunGoCodeArgs`. -/
def isRunGoCodeArgs (args : Option ArgsBag) : Bool :=
  hasValidCodeArg args && withVetArgOk args

/-- types.ts `isShareGoCodeArgs`. -/
def isShareGoCodeArgs (args : Option ArgsBag) : Bool :=
  hasValidCodeArg args

/-- types.ts `isRunAndShareGoCodeArgs`. -/
def isRunAndShareGoCodeArgs (args : Option ArgsBag) : Bool :=
  hasValidCodeArg args && withVetArgOk args

/-- types.ts `isValidToolName`: membership in the three `TOOL_NAMES`
literals. -/
def isValidToolName (name : String) : Bool :=
  name == "run_go_code" || name == "share_go_code" || name == "run_and_share_go_code"

/-- mcp-server.ts `createErrorResponse` applied to a `GoPlaygroundError`:
the response text is `Error [<code>]: <message>`. -/
def errorResponseText (code message : String) : String :=
  "Error [" ++ code ++ "]: " ++ message

/-- The code string extracted from a validated bag (the guards guarantee it
is a string; any other shape yields a dummy empty string). -/
def argCodeString (args : Option ArgsBag) : String :=
  match args with
  | some bag =>
    match bag.code with
    | some (.str s) => s
    | _ => ""
  | none => ""

/-- mcp-server.ts tool-call handling: the `isValidToolName` gate of
`setupToolHandlers` followed by the `createToolRouter` switch.  Returns the
textual payload of the MCP response together with the list of remote calls
issued.  An unknown name or a failed argument guard yields a uniform
`VALIDATION_ERROR` error response with no remote call. -/
def handleToolCall (frontendUrl : String) (name : String) (args : Option ArgsBag)
    (runNet : RunNet) (shareNet : ShareNet) : String × List RemoteCall :=
  if ¬ (isValidToolName name) then
    (errorResponseText "VALIDATION_ERROR" ("Unknown tool: " ++ name), [])
  else if name == "run_go_code" then
    if ¬ (isRunGoCodeArgs args) then
      (errorResponseText "VALIDATION_ERROR" "Invalid arguments for run_go_code", [])
    else
      let r := runGoCode (argCodeString args) runNet
      (formatRunResponse r.1, r.2)
  else if name == "share_go_code" then
    if ¬ (isShareGoCodeArgs args) then
      (errorResponseText "VALIDATION_ERROR" "Invalid arguments for share_go_code", [])
    else
      let r := shareGoCode frontendUrl (argCodeString args) shareNet
      ((match r.1 with
        | some shareUrl => "✅ Code shared successfully!\n\n**Share URL:** " ++ shareUrl
        | none => "❌ Failed to share code. Please try again."), r.2)
  else
    if ¬ (isRunAndShareGoCodeArgs args) then
      (errorResponseText "VALIDATION_ERROR" "Invalid arguments for run_and_share_go_code", [])
    else
      let r := runAndShareGoCode frontendUrl (argCodeString args) runNet shareNet
      (formatRunAndShareResponse r.1, r.2)

/-! ### Concrete inputs used by witnesses and counterexamples -/

/-- A response whose `Errors` text is non-empty but consists of whitespace
only, together with a stdout event stream. -/
def whitespaceErrorsResp : GoPlaygroundResponse :=
  { Errors := " ", Events := some [{ Message := "hi", Kind := EventKind.stdout, Delay := 0 }],
    Status := 0, IsTest := false, TestsFailed := 0, VetOK := none }

/-- A response with a genuine compile error and an event stream that must be
ignored. -/
def compileErrResp : GoPlaygroundResponse :=
  { Errors := "prog.go:3:1: syntax error", Events := some [{ Message := "ignored", Kind := EventKind.stdout, Delay := 0 }],
    Status := 2, IsTest := false, TestsFailed := 0, VetOK := none }

/-- A response with no compile error and an interleaved stdout / stderr
stream. -/
def stderrResp : GoPlaygroundResponse :=
  { Errors := "",
    Events := some [{ Message := "out", Kind := EventKind.stdout, Delay := 0 },
                    { Message := "a", Kind := EventKind.stderr, Delay := 0 },
                    { Message := "b", Kind := EventKind.stderr, Delay := 5 }],
    Status := 1, IsTest := false, TestsFailed := 0, VetOK := none }

/-- A response with no compile error and a stdout-only stream containing an
empty message. -/
def stdoutResp : GoPlaygroundResponse :=
  { Errors := "",
    Events := some [{ Message := "hi\n", Kind := EventKind.stdout, Delay := 0 },
                    { Message := "", Kind := EventKind.stdout, Delay := 0 },
                    { Message := "bye", Kind := EventKind.stdout, Delay := 100 }],
    Status := 0, IsTest := false, TestsFailed := 0, VetOK := none }

/-- A response with no compile error and an absent `Events` field. -/
def noEventsResp : GoPlaygroundResponse :=
  { Errors := "", Events := none, Status := 0, IsTest := false, TestsFailed := 0, VetOK := none }

/-- A valid code example. -/
def exCode : String := "package main"

/-- A run network behaviour delivering `stdoutResp`. -/
def exRunNet : RunNet := Except.ok (some stdoutResp)

/-- A share network behaviour delivering a share identifier. -/
def exShareOkNet : ShareNet := Except.ok "AbC123xyz"

/-- A share network behaviour that fails with a transport error. -/
def exShareFailNet : ShareNet := Except.error (ApiError.other "share service down")

/-- An argument bag whose code argument is the empty string. -/
def emptyCodeArgs : Option ArgsBag :=
  some { code := some (JsonVal.str ""), withVet := none }

/-! ### Theorems -/

/-- The output field of `processEvents` is always the concatenation of the
non-empty stdout messages, in order (the empty-list short-circuit agrees
with the general path). -/
theorem processEvents_output_eq (events : List GoPlaygroundEvent) :
    (processEvents events).output =
      String.join (((events.filter (fun e => e.Kind == EventKind.stdout)).map
        (fun e => e.Message)).filter (fun m => m != "")) := by
  cases events with
  | nil => rfl
  | cons a l => rfl

/-- C1 (counterexample): a response whose `Errors` text is the non-empty
whitespace string `" "` is classified as a `success`, not as the `failure`
the claim requires. -/
theorem c1_counterexample :
    whitespaceErrorsResp.Errors ≠ "" ∧
    processRunResponse (some whitespaceErrorsResp) =
      MCPGoPlaygroundResult.success "hi" 0 none := by
  decide

/-- C1 (amended): for every remote execution response whose compile-error
text is non-empty after trimming, the classifier returns `failure` with
`errors` equal to that raw text and `exitCode` equal to the response
`Status`, regardless of any events present. -/
theorem c1_compile_error_precedence (resp : GoPlaygroundResponse)
    (h : jsTrim resp.Errors ≠ "") :
    processRunResponse (some resp) =
      MCPGoPlaygroundResult.failure resp.Errors (some resp.Status) none := by
  have hne : resp.Errors ≠ "" := by
    intro h0
    apply h
    rw [h0]
    decide
  simp only [processRunResponse]
  rw [if_pos ⟨hne, h⟩]

/-- Witness for C1: the compile-error response is classified as a compile
failure, events notwithstanding. -/
theorem c1_compile_error_precedence_witness :
    jsTrim compileErrResp.Errors ≠ "" ∧
    processRunResponse (some compileErrResp) =
      MCPGoPlaygroundResult.failure "prog.go:3:1: syntax error" (some 2) none :=
  ⟨by decide, c1_compile_error_precedence compileErrResp (by decide)⟩

/-- C2: for every response with empty `Errors` and at least one stderr
event, the classifier returns `failure` whose `errors` is the concatenation
of all stderr messages in emission order and whose `exitCode` is the
response `Status`. -/
theorem c2_stderr_failure (resp : GoPlaygroundResponse) (hE : resp.Errors = "")
    (hs : 0 < ((resp.Events.getD []).filter (fun e => e.Kind == EventKind.stderr)).length) :
    processRunResponse (some resp) =
      MCPGoPlaygroundResult.failure
        (String.join (((resp.Events.getD []).filter (fun e => e.Kind == EventKind.stderr)).map
          (fun e => e.Message)))
        (some resp.Status) none := by
  simp [processRunResponse, hE, hs]

/-- Witness for C2: the interleaved stream yields the stderr concatenation
`"ab"` with exit code 1. -/
theorem c2_stderr_failure_witness :
    stderrResp.Errors = "" ∧
    processRunResponse (some stderrResp) =
      MCPGoPlaygroundResult.failure "ab" (some 1) none :=
  ⟨rfl, c2_stderr_failure stderrResp rfl (by decide)⟩

/-- C3: for every response with empty `Errors` and no stderr events, the
classifier returns `success` whose `output` is the concatenation of all
non-empty stdout messages in emission order and whose `exitCode` is the
response `Status`. -/
theorem c3_stdout_success (resp : GoPlaygroundResponse) (hE : resp.Errors = "")
    (hs : ((resp.Events.getD []).filter (fun e => e.Kind == EventKind.stderr)).length = 0) :
    processRunResponse (some resp) =
      MCPGoPlaygroundResult.success
        (String.join ((((resp.Events.getD []).filter (fun e => e.Kind == EventKind.stdout)).map
          (fun e => e.Message)).filter (fun m => m != "")))
        resp.Status none := by
  simp [processRunResponse, hE, hs, processEvents_output_eq]

/-- Witness for C3: the stdout-only stream yields `"hi\nbye"` (the empty
message is skipped) with exit code 0. -/
theorem c3_stdout_success_witness :
    stdoutResp.Errors = "" ∧
    processRunResponse (some stdoutResp) =
      MCPGoPlaygroundResult.success "hi\nbye" 0 none :=
  ⟨rfl, c3_stdout_success stdoutResp rfl (by decide)⟩

/-- C10: the classifier is total over degenerate inputs: a null / non-object
response maps to the fixed invalid-response failure with no exit code, and
an absent or null `Events` field with empty `Errors` maps to a `success`
with empty output and `exitCode` equal to `Status`. -/
theorem c10_degenerate_total :
    processRunResponse none =
      MCPGoPlaygroundResult.failure invalidResponseMessage none none ∧
    ∀ resp : GoPlaygroundResponse, resp.Errors = "" → resp.Events = none →
      processRunResponse (some resp) =
        MCPGoPlaygroundResult.success "" resp.Status none := by
  refine ⟨rfl, ?_⟩
  intro resp hE hEv
  simp [processRunResponse, hE, hEv, processEvents]

/-- Witness for C10: the no-events response yields an empty success. -/
theorem c10_degenerate_total_witness :
    processRunResponse none =
      MCPGoPlaygroundResult.failure invalidResponseMessage none none ∧
    processRunResponse (some noEventsResp) =
      MCPGoPlaygroundResult.success "" 0 none :=
  ⟨c10_degenerate_total.1, c10_degenerate_total.2 noEventsResp rfl rfl⟩

/-- C4: in the run-and-share composition, when the share operation yields no
identifier the merged result is exactly the execute result with `shareUrl`
absent; in particular a successful execution stays a `success`. -/
theorem c4_share_failure_preserves_run (frontendUrl code : String)
    (runNet : RunNet) (shareNet : ShareNet)
    (hv : isGoCode code = true)
    (hshare : (shareGoCode frontendUrl code shareNet).1 = none) :
    (runAndShareGoCode frontendUrl code runNet shareNet).1 =
      withShare (runGoCode code runNet).1 none ∧
    ∀ (o : String) (e : Int) (u : Option String),
      (runGoCode code runNet).1 = MCPGoPlaygroundResult.success o e u →
      (runAndShareGoCode frontendUrl code runNet shareNet).1 =
        MCPGoPlaygroundResult.success o e none := by
  have hmain : (runAndShareGoCode frontendUrl code runNet shareNet).1 =
      withShare (runGoCode code runNet).1 none := by
    simp [runAndShareGoCode, validateGoCode, hv, hshare]
  refine ⟨hmain, ?_⟩
  intro o e u hrun
  rw [hmain, hrun]
  rfl

/-- Witness for C4: execute succeeds on `stdoutResp` while the share call
fails; the composed result is the same success with no share URL. -/
theorem c4_share_failure_preserves_run_witness :
    isGoCode exCode = true ∧
    (shareGoCode "https://go.dev/play" exCode exShareFailNet).1 = none ∧
    (runAndShareGoCode "https://go.dev/play" exCode exRunNet exShareFailNet).1 =
      MCPGoPlaygroundResult.success "hi\nbye" 0 none :=
  ⟨by decide, by decide,
    (c4_share_failure_preserves_run "https://go.dev/play" exCode exRunNet exShareFailNet
      (by decide) (by decide)).2 "hi\nbye" 0 none (by decide)⟩

/-- C5: an input whose code argument fails validation makes each of the
three tools answer with the uniform `VALIDATION_ERROR` response while
issuing no remote call. -/
theorem c5_validation_gate (frontendUrl : String) (args : Option ArgsBag)
    (runNet : RunNet) (shareNet : ShareNet)
    (h : hasValidCodeArg args = false) :
    handleToolCall frontendUrl "run_go_code" args runNet shareNet =
      (errorResponseText "VALIDATION_ERROR" "Invalid arguments for run_go_code", []) ∧
    handleToolCall frontendUrl "share_go_code" args runNet shareNet =
      (errorResponseText "VALIDATION_ERROR" "Invalid arguments for share_go_code", []) ∧
    handleToolCall frontendUrl "run_and_share_go_code" args runNet shareNet =
      (errorResponseText "VALIDATION_ERROR" "Invalid arguments for run_and_share_go_code", []) := by
  refine ⟨?_, ?_, ?_⟩ <;>
    simp [handleToolCall, isValidToolName, isRunGoCodeArgs, isShareGoCodeArgs,
      isRunAndShareGoCodeArgs, h]

/-- Witness for C5: the empty-string code argument is rejected by all three
tools with no remote call. -/
theorem c5_validation_gate_witness :
    hasValidCodeArg emptyCodeArgs = false ∧
    (handleToolCall "https://go.dev/play" "run_go_code" emptyCodeArgs exRunNet exShareOkNet =
      (errorResponseText "VALIDATION_ERROR" "Invalid arguments for run_go_code", []) ∧
    handleToolCall "https://go.dev/play" "share_go_code" emptyCodeArgs exRunNet exShareOkNet =
      (errorResponseText "VALIDATION_ERROR" "Invalid arguments for share_go_code", []) ∧
    handleToolCall "https://go.dev/play" "run_and_share_go_code" emptyCodeArgs exRunNet exShareOkNet =
      (errorResponseText "VALIDATION_ERROR" "Invalid arguments for run_and_share_go_code", [])) :=
  ⟨by decide,
    c5_validation_gate "https://go.dev/play" emptyCodeArgs exRunNet exShareOkNet (by decide)⟩

/-- C6: a transport failure of the execute operation yields a failure result
rather than an exception; the failure text carries the HTTP status code when
it is available and the literal `unknown` otherwise, and the `/compile`
request is the single remote call issued. -/
theorem c6_network_error (code message : String) (n : Nat)
    (hv : isGoCode code = true) :
    (runGoCode code (Except.error (ApiError.axios (some n) message))).1 =
      MCPGoPlaygroundResult.failure
        ("HTTP Error: " ++ toString n ++ " - " ++ message) none none ∧
    (runGoCode code (Except.error (ApiError.axios none message))).1 =
      MCPGoPlaygroundResult.failure
        ("HTTP Error: " ++ "unknown" ++ " - " ++ message) none none := by
  constructor <;> simp [runGoCode, validateGoCode, hv, handleApiError]

/-- Witness for C6: a 500 response surfaces as an HTTP failure text carrying
the status. -/
theorem c6_network_error_witness :
    isGoCode exCode = true ∧
    (runGoCode exCode (Except.error (ApiError.axios (some 500) "Request failed"))).1 =
      MCPGoPlaygroundResult.failure "HTTP Error: 500 - Request failed" none none :=
  ⟨by decide, (c6_network_error exCode "Request failed" 500 (by decide)).1⟩

/-- C7: a successful share with identifier `i` produces the link
`frontendUrl ++ "/p/" ++ i`, and the run-and-share composition attaches that
link to whichever result the execute pipeline produced. -/
theorem c7_share_link (frontendUrl code shareId : String) (runNet : RunNet)
    (hv : isGoCode code = true) :
    (shareGoCode frontendUrl code (Except.ok shareId)).1 =
      some (frontendUrl ++ "/p/" ++ shareId) ∧
    (runAndShareGoCode frontendUrl code runNet (Except.ok shareId)).1 =
      withShare (runGoCode code runNet).1 (some (frontendUrl ++ "/p/" ++ shareId)) := by
  constructor <;>
    simp [shareGoCode, runAndShareGoCode, validateGoCode, hv]

/-- Witness for C7: the identifier `AbC123xyz` yields the link
`https://go.dev/play/p/AbC123xyz`, attached to the successful execution. -/
theorem c7_share_link_witness :
    isGoCode exCode = true ∧
    (shareGoCode "https://go.dev/play" exCode exShareOkNet).1 =
      some "https://go.dev/play/p/AbC123xyz" ∧
    (runAndShareGoCode "https://go.dev/play" exCode exRunNet exShareOkNet).1 =
      withShare (runGoCode exCode exRunNet).1 (some "https://go.dev/play/p/AbC123xyz") :=
  ⟨by decide, c7_share_link "https://go.dev/play" exCode "AbC123xyz" exRunNet (by decide)⟩

/-- C8: a tool name outside the three known literals is answered with the
uniform `VALIDATION_ERROR` unknown-tool response and no remote call. -/
theorem c8_unknown_tool (frontendUrl name : String) (args : Option ArgsBag)
    (runNet : RunNet) (shareNet : ShareNet)
    (h1 : name ≠ "run_go_code") (h2 : name ≠ "share_go_code")
    (h3 : name ≠ "run_and_share_go_code") :
    handleToolCall frontendUrl name args runNet shareNet =
      (errorResponseText "VALIDATION_ERROR" ("Unknown tool: " ++ name), []) := by
  have hv : isValidToolName name = false := by
    simp [isValidToolName, h1, h2, h3]
  simp [handleToolCall, hv]

/-- Witness for C8: the tool name `delete_everything` is rejected with no
remote call. -/
theorem c8_unknown_tool_witness :
    ("delete_everything" ≠ "run_go_code" ∧ "delete_everything" ≠ "share_go_code" ∧
      "delete_everything" ≠ "run_and_share_go_code") ∧
    handleToolCall "https://go.dev/play" "delete_everything" emptyCodeArgs exRunNet exShareOkNet =
      (errorResponseText "VALIDATION_ERROR" ("Unknown tool: " ++ "delete_everything"), []) :=
  ⟨⟨by decide, by decide, by decide⟩,
    c8_unknown_tool "https://go.dev/play" "delete_everything" emptyCodeArgs exRunNet exShareOkNet
      (by decide) (by decide) (by decide)⟩

/-- C9: the combined report is the run report followed by the share line
(the share URL when present, the warning otherwise), and the failure report
carries the exit-code line exactly when an exit code is present. -/
theorem c9_report_layout :
    (∀ r : MCPGoPlaygroundResult,
      formatRunAndShareResponse r =
        formatRunResponse r ++
          (match shareUrlOf r with
           | some u => "\n**Share URL:** " ++ u
           | none => "\n⚠️ Failed to generate share URL")) ∧
    (∀ (errors : String) (ec : Int),
      formatFailureResponse errors (some ec) =
        formatFailureResponse errors none ++ "\n" ++ ("**Exit Code:** " ++ toString ec)) := by
  constructor
  · intro r
    cases r with
    | success o e u => cases u <;> rfl
    | failure er e u => cases u <;> rfl
  · intro errors ec
    rfl

end GoPlayground
